import Mathlib

/-!
Verification of `elftools/elf/segments.py`: the ELF `Segment` class with its
`data()` extraction and `section_in_segment` containment predicate, plus the
`InterpSegment` and `NoteSegment` specializations.

Header fields are already-decoded unsigned integers (Python unbounded ints,
embedded as `Nat`), except the type fields `p_type` / `sh_type`, which the
code compares against symbolic names and are embedded as `String`.
Arithmetic inside the containment predicate is exact integer arithmetic
(Python ints), embedded by casting to `Int` where subtraction occurs.
-/

/-- Modelled from the spec: bit constant for the TLS section flag
(`SH_FLAGS.SHF_TLS` from `elftools/elf/constants.py`, which is outside the
sources; the spec only requires distinct bit constants for TLS and ALLOC).
The standard ELF value is used. -/
def SHF_TLS : Nat := 0x400

/-- Modelled from the spec: bit constant for the ALLOC section flag
(`SH_FLAGS.SHF_ALLOC` from `elftools/elf/constants.py`, outside the sources).
The standard ELF value is used. -/
def SHF_ALLOC : Nat := 0x2

/-- A decoded program-header entry: the fields of the Header View that
`Segment` consults. -/
structure SegmentHeader where
  p_type : String
  p_offset : Nat
  p_vaddr : Nat
  p_filesz : Nat
  p_memsz : Nat
deriving Repr, DecidableEq

/-- A decoded section-header entry: the fields of the Section View that
`section_in_segment` consults. -/
structure SectionHeader where
  sh_type : String
  sh_flags : Nat
  sh_addr : Nat
  sh_size : Nat
  sh_offset : Nat
deriving Repr, DecidableEq

/-- First block of `section_in_segment`: the TLS-compatibility check.
It returns `False` (the Python `elif` branch fires) exactly when the pass
condition `secflags & SHF_TLS and segtype in (PT_TLS, PT_GNU_RELRO, PT_LOAD)`
fails and `secflags & SHF_TLS != 0 or segtype in (PT_TLS, PT_PHDR)` holds. -/
abbrev tlsCheckFails (seg : SegmentHeader) (sec : SectionHeader) : Prop :=
  ¬(sec.sh_flags &&& SHF_TLS ≠ 0 ∧
      seg.p_type ∈ ["PT_TLS", "PT_GNU_RELRO", "PT_LOAD"]) ∧
  (sec.sh_flags &&& SHF_TLS ≠ 0 ∨ seg.p_type ∈ ["PT_TLS", "PT_PHDR"])

/-- Second block of `section_in_segment`: PT_LOAD and similar segments only
have SHF_ALLOC sections. -/
abbrev allocOnlyCheckFails (seg : SegmentHeader) (sec : SectionHeader) : Prop :=
  sec.sh_flags &&& SHF_ALLOC = 0 ∧
  seg.p_type ∈ ["PT_LOAD", "PT_DYNAMIC", "PT_GNU_EH_FRAME",
                "PT_GNU_RELRO", "PT_GNU_STACK"]

/-- Third block of `section_in_segment`: for an alloc section, the
virtual-address containment check (`check_vma` always on). Subtraction is
Python's exact integer subtraction, embedded in `Int`. -/
abbrev vmaCheckFails (seg : SegmentHeader) (sec : SectionHeader) : Prop :=
  sec.sh_flags &&& SHF_ALLOC ≠ 0 ∧
  ((sec.sh_addr : Int) < (seg.p_vaddr : Int) ∨
   (sec.sh_addr : Int) - (seg.p_vaddr : Int) + (sec.sh_size : Int) >
     (seg.p_memsz : Int) ∨
   (sec.sh_addr : Int) - (seg.p_vaddr : Int) > (seg.p_memsz : Int) - 1)

/-- Final block of `section_in_segment`: the file-offset containment test. -/
abbrev offsetContained (seg : SegmentHeader) (sec : SectionHeader) : Prop :=
  (sec.sh_offset : Int) ≥ (seg.p_offset : Int) ∧
  (sec.sh_offset : Int) - (seg.p_offset : Int) + (sec.sh_size : Int) ≤
    (seg.p_filesz : Int) ∧
  (sec.sh_offset : Int) - (seg.p_offset : Int) ≤ (seg.p_filesz : Int) - 1

/-- `Segment.section_in_segment(section)`: is the given section contained in
this segment?  Ordered early-exit checks as in the source. -/
def section_in_segment (seg : SegmentHeader) (sec : SectionHeader) : Bool :=
  if tlsCheckFails seg sec then false
  else if allocOnlyCheckFails seg sec then false
  else if vmaCheckFails seg sec then false
  else if sec.sh_type = "SHT_NOBITS" then true
  else decide (offsetContained seg sec)

/-- C1: claimed — for every segment with `p_memsz = 0` and every ALLOC section
with `sh_addr = p_vaddr`, `sh_size = 0`, the virtual-address check does not
return false.  The code does the opposite: with Python's exact (signed)
subtraction, `p_memsz - 1 = -1` and `secaddr - vaddr = 0 > -1` fires the third
comparison, so the degenerate input below is excluded.  This theorem evaluates
the code at that failing input: the VMA check fires and the predicate returns
false, contradicting both the claim and the code's own comment (which says the
zero-size-segment case "is handled by the second condition", as in the
unsigned-arithmetic binutils macro the docstring cites). -/
theorem C1_degenerate_zero_size_segment :
    vmaCheckFails ⟨"PT_LOAD", 0, 0x1000, 0, 0⟩
      ⟨"SHT_PROGBITS", SHF_ALLOC, 0x1000, 0, 0⟩ ∧
    section_in_segment ⟨"PT_LOAD", 0, 0x1000, 0, 0⟩
      ⟨"SHT_PROGBITS", SHF_ALLOC, 0x1000, 0, 0⟩ = false := by
  decide

/-- C3: the first (TLS-compatibility) check of `section_in_segment`:
a TLS-flagged section in a segment outside {PT_TLS, PT_GNU_RELRO, PT_LOAD}
gives false; a non-TLS section in a PT_TLS or PT_PHDR segment gives false;
a TLS-flagged section in a segment of type PT_TLS, PT_GNU_RELRO or PT_LOAD
is not decided false by this first check. -/
theorem C3_tls_first_check :
    (∀ seg sec, sec.sh_flags &&& SHF_TLS ≠ 0 →
      seg.p_type ∉ ["PT_TLS", "PT_GNU_RELRO", "PT_LOAD"] →
      section_in_segment seg sec = false) ∧
    (∀ seg sec, sec.sh_flags &&& SHF_TLS = 0 →
      seg.p_type ∈ ["PT_TLS", "PT_PHDR"] →
      section_in_segment seg sec = false) ∧
    (∀ seg sec, sec.sh_flags &&& SHF_TLS ≠ 0 →
      seg.p_type ∈ ["PT_TLS", "PT_GNU_RELRO", "PT_LOAD"] →
      ¬ tlsCheckFails seg sec) := by
  refine ⟨?_, ?_, ?_⟩
  · intro seg sec htls hmem
    unfold section_in_segment
    rw [if_pos ⟨fun hp => hmem hp.2, Or.inl htls⟩]
  · intro seg sec htls hmem
    unfold section_in_segment
    rw [if_pos ⟨fun hp => hp.1 htls, Or.inr hmem⟩]
  · intro seg sec htls hmem hfail
    exact hfail.1 ⟨htls, hmem⟩

/-- Witness for C3 at concrete inputs. -/
theorem C3_tls_first_check_witness :
    section_in_segment ⟨"PT_NOTE", 0, 0, 0, 0⟩
      ⟨"SHT_PROGBITS", SHF_TLS, 0, 0, 0⟩ = false ∧
    section_in_segment ⟨"PT_PHDR", 0, 0, 0, 0⟩
      ⟨"SHT_PROGBITS", 0, 0, 0, 0⟩ = false ∧
    ¬ tlsCheckFails ⟨"PT_TLS", 0, 0, 0, 0⟩
      ⟨"SHT_PROGBITS", SHF_TLS, 0, 0, 0⟩ :=
  ⟨C3_tls_first_check.1 _ _ (by decide) (by decide),
   C3_tls_first_check.2.1 _ _ (by decide) (by decide),
   C3_tls_first_check.2.2 _ _ (by decide) (by decide)⟩

/-- C4: the three concrete examples against the segment
`{p_type=PT_LOAD, p_offset=0, p_vaddr=0x1000, p_filesz=0x100, p_memsz=0x100}`:
an ALLOC PROGBITS section filling the range is contained; a zero-size section
exactly at the end of the range is not; a zero-size section one byte before
the end is. -/
theorem C4_concrete_examples :
    section_in_segment ⟨"PT_LOAD", 0, 0x1000, 0x100, 0x100⟩
      ⟨"SHT_PROGBITS", SHF_ALLOC, 0x1000, 0x100, 0⟩ = true ∧
    section_in_segment ⟨"PT_LOAD", 0, 0x1000, 0x100, 0x100⟩
      ⟨"SHT_PROGBITS", SHF_ALLOC, 0x1100, 0, 0x100⟩ = false ∧
    section_in_segment ⟨"PT_LOAD", 0, 0x1000, 0x100, 0x100⟩
      ⟨"SHT_PROGBITS", SHF_ALLOC, 0x10FF, 0, 0xFF⟩ = true := by
  decide

/-- C5: a segment of type PT_LOAD, PT_DYNAMIC, PT_GNU_EH_FRAME, PT_GNU_RELRO
or PT_GNU_STACK never contains a section lacking the ALLOC flag. -/
theorem C5_alloc_only_segments (seg : SegmentHeader) (sec : SectionHeader)
    (halloc : sec.sh_flags &&& SHF_ALLOC = 0)
    (hmem : seg.p_type ∈ ["PT_LOAD", "PT_DYNAMIC", "PT_GNU_EH_FRAME",
      "PT_GNU_RELRO", "PT_GNU_STACK"]) :
    section_in_segment seg sec = false := by
  unfold section_in_segment
  split_ifs with h1 h2 h3 h4 <;>
    first | rfl | exact absurd ⟨halloc, hmem⟩ h2

/-- Witness for C5 at a concrete input. -/
theorem C5_alloc_only_segments_witness :
    section_in_segment ⟨"PT_DYNAMIC", 0, 0, 0x10, 0x10⟩
      ⟨"SHT_PROGBITS", 0, 0, 4, 0⟩ = false :=
  C5_alloc_only_segments _ _ (by decide) (by decide)

/-- C6: when the section's type is NOBITS and none of the earlier checks
(TLS compatibility, allocatable-only kinds, virtual-address containment)
returned false, `section_in_segment` returns true — the file-offset test is
skipped, so the result does not depend on `sh_offset`. -/
theorem C6_nobits_shortcut (seg : SegmentHeader) (sec : SectionHeader)
    (h1 : ¬ tlsCheckFails seg sec)
    (h2 : ¬ allocOnlyCheckFails seg sec)
    (h3 : ¬ vmaCheckFails seg sec)
    (h4 : sec.sh_type = "SHT_NOBITS") :
    section_in_segment seg sec = true := by
  unfold section_in_segment
  rw [if_neg h1, if_neg h2, if_neg h3, if_pos h4]

/-- Witness for C6: an ALLOC NOBITS section with a valid VMA range but a file
offset far outside the segment's file range is still contained. -/
theorem C6_nobits_shortcut_witness :
    section_in_segment ⟨"PT_LOAD", 0, 0x1000, 0x10, 0x100⟩
      ⟨"SHT_NOBITS", SHF_ALLOC, 0x1000, 0x80, 0xFFFF⟩ = true :=
  C6_nobits_shortcut _ _ (by decide) (by decide) (by decide) (by decide)

/-- C8: for a segment whose type is outside all seven types consulted by the
checks (e.g. PT_NOTE) and a NOBITS section carrying neither TLS nor ALLOC,
`section_in_segment` returns true whatever the address, size and offset
fields are: none of them are consulted. -/
theorem C8_fields_not_consulted (seg : SegmentHeader) (sec : SectionHeader)
    (hmem : seg.p_type ∉ ["PT_TLS", "PT_PHDR", "PT_LOAD", "PT_DYNAMIC",
      "PT_GNU_EH_FRAME", "PT_GNU_RELRO", "PT_GNU_STACK"])
    (htls : sec.sh_flags &&& SHF_TLS = 0)
    (halloc : sec.sh_flags &&& SHF_ALLOC = 0)
    (hnb : sec.sh_type = "SHT_NOBITS") :
    section_in_segment seg sec = true := by
  have h1 : ¬ tlsCheckFails seg sec := by
    rintro ⟨-, h | h⟩
    · exact h htls
    · simp only [List.mem_cons, List.not_mem_nil, or_false] at h hmem
      tauto
  have h2 : ¬ allocOnlyCheckFails seg sec := by
    rintro ⟨-, h⟩
    simp only [List.mem_cons, List.not_mem_nil, or_false] at h hmem
    tauto
  have h3 : ¬ vmaCheckFails seg sec := fun g => g.1 halloc
  unfold section_in_segment
  rw [if_neg h1, if_neg h2, if_neg h3, if_pos hnb]

/-- Witness for C8: a PT_NOTE segment and a flagless NOBITS section with
arbitrary nonzero numeric fields. -/
theorem C8_fields_not_consulted_witness :
    section_in_segment ⟨"PT_NOTE", 91, 92, 93, 94⟩
      ⟨"SHT_NOBITS", 0, 95, 96, 97⟩ = true :=
  C8_fields_not_consulted _ _ (by decide) (by decide) (by decide) (by decide)

/-- Modelled from the spec: the external Byte Source — a seekable, readable
byte stream with a current position, shared across segments.  Read semantics
follow the standard file-object contract the code relies on: `read(n)`
returns at most `n` bytes and simply returns fewer at end of stream, without
raising. -/
structure ByteSource where
  data : List Nat
  pos : Nat
deriving Repr, DecidableEq

/-- `stream.seek(position)`: set the current position. -/
def ByteSource.seek (s : ByteSource) (p : Nat) : ByteSource :=
  { s with pos := p }

/-- `stream.read(n)`: return up to `n` bytes from the current position and
advance the position by the number of bytes actually returned. -/
def ByteSource.read (s : ByteSource) (n : Nat) : List Nat × ByteSource :=
  let chunk := (s.data.drop s.pos).take n
  (chunk, { s with pos := s.pos + chunk.length })

/-- `Segment.data()`: seek the stream to `p_offset` and read `p_filesz`
bytes; the stream state is threaded explicitly. -/
def Segment.data (header : SegmentHeader) (stream : ByteSource) :
    List Nat × ByteSource :=
  let s1 := stream.seek header.p_offset
  s1.read header.p_filesz

/-- C2 counterexample: the claim says `data()` fails on a short read and
never silently returns a shorter buffer.  Against a 2-byte stream, a segment
with `p_filesz = 4` returns normally with a 2-byte buffer: the code performs
no length check after `stream.read`. -/
theorem C2_short_read_counterexample :
    (Segment.data ⟨"PT_LOAD", 0, 0, 4, 4⟩ ⟨[10, 20], 0⟩).1 = [10, 20] ∧
    (Segment.data ⟨"PT_LOAD", 0, 0, 4, 4⟩ ⟨[10, 20], 0⟩).1.length <
      (⟨"PT_LOAD", 0, 0, 4, 4⟩ : SegmentHeader).p_filesz := by
  decide

/-- C2 amended: `data()` returns whatever the underlying read yields — the
`p_filesz`-byte slice of the stream starting at `p_offset`, truncated at end
of stream; a short read is returned silently rather than surfaced as an
error. -/
theorem C2_data_returns_read_slice (header : SegmentHeader)
    (stream : ByteSource) :
    (Segment.data header stream).1 =
      (stream.data.drop header.p_offset).take header.p_filesz := by
  rfl

/-- A value held by a Header View: the type fields are symbolic names, every
other field is an unsigned integer. -/
inductive FieldVal where
  | str : String → FieldVal
  | num : Nat → FieldVal
deriving Repr, DecidableEq

/-- Modelled from the spec: a Header View / Section View — an immutable
mapping from field name to value; an absent name is the UnknownField
condition, embedded as `none`. -/
def HeaderView : Type := String → Option FieldVal

/-- Dict-like access `self[name]` expecting a symbolic (string) field. -/
def getStr (h : HeaderView) (name : String) : Option String :=
  match h name with
  | some (FieldVal.str s) => some s
  | _ => none

/-- Dict-like access `self[name]` expecting an integer field. -/
def getNum (h : HeaderView) (name : String) : Option Nat :=
  match h name with
  | some (FieldVal.num n) => some n
  | _ => none

/-- `section_in_segment` over raw Header Views, with the source's dict-like
field access embedded in `Option`: `none` is the UnknownField error, and
fields are looked up lazily in the order the source reads them. -/
def section_in_segmentHV (seg sec : HeaderView) : Option Bool :=
  match getStr seg "p_type", getStr sec "sh_type", getNum sec "sh_flags" with
  | some segtype, some sectype, some secflags =>
    if ¬(secflags &&& SHF_TLS ≠ 0 ∧
          segtype ∈ ["PT_TLS", "PT_GNU_RELRO", "PT_LOAD"]) ∧
       (secflags &&& SHF_TLS ≠ 0 ∨ segtype ∈ ["PT_TLS", "PT_PHDR"]) then
      some false
    else if secflags &&& SHF_ALLOC = 0 ∧
        segtype ∈ ["PT_LOAD", "PT_DYNAMIC", "PT_GNU_EH_FRAME",
                   "PT_GNU_RELRO", "PT_GNU_STACK"] then
      some false
    else
      let rest : Option Bool :=
        if sectype = "SHT_NOBITS" then some true
        else
          match getNum sec "sh_offset", getNum seg "p_offset",
              getNum sec "sh_size", getNum seg "p_filesz" with
          | some secoffset, some poffset, some secsize, some filesz =>
            some (decide ((secoffset : Int) ≥ (poffset : Int) ∧
              (secoffset : Int) - (poffset : Int) + (secsize : Int) ≤
                (filesz : Int) ∧
              (secoffset : Int) - (poffset : Int) ≤ (filesz : Int) - 1))
          | _, _, _, _ => none
      if secflags &&& SHF_ALLOC ≠ 0 then
        match getNum sec "sh_addr", getNum seg "p_vaddr",
            getNum sec "sh_size", getNum seg "p_memsz" with
        | some secaddr, some vaddr, some secsize, some memsz =>
          if (secaddr : Int) < (vaddr : Int) ∨
             (secaddr : Int) - (vaddr : Int) + (secsize : Int) >
               (memsz : Int) ∨
             (secaddr : Int) - (vaddr : Int) > (memsz : Int) - 1 then
            some false
          else rest
        | _, _, _, _ => none
      else rest
  | _, _, _ => none

/-- The Header View of a decoded program-header entry: all five `p_*` fields
present. -/
def segViewOf (s : SegmentHeader) : HeaderView := fun name =>
  if name = "p_type" then some (FieldVal.str s.p_type)
  else if name = "p_offset" then some (FieldVal.num s.p_offset)
  else if name = "p_vaddr" then some (FieldVal.num s.p_vaddr)
  else if name = "p_filesz" then some (FieldVal.num s.p_filesz)
  else if name = "p_memsz" then some (FieldVal.num s.p_memsz)
  else none

/-- The Section View of a decoded section-header entry: all five `sh_*`
fields present. -/
def secViewOf (c : SectionHeader) : HeaderView := fun name =>
  if name = "sh_type" then some (FieldVal.str c.sh_type)
  else if name = "sh_flags" then some (FieldVal.num c.sh_flags)
  else if name = "sh_addr" then some (FieldVal.num c.sh_addr)
  else if name = "sh_size" then some (FieldVal.num c.sh_size)
  else if name = "sh_offset" then some (FieldVal.num c.sh_offset)
  else none

/-- C7: `section_in_segment` never errors — for any pair of views that carry
the five `p_*` and five `sh_*` fields with their expected kinds, the
predicate is total and returns a boolean (never the UnknownField `none`). -/
theorem C7_predicate_total (seg sec : HeaderView)
    (hpt : ∃ x, getStr seg "p_type" = some x)
    (hpo : ∃ x, getNum seg "p_offset" = some x)
    (hpv : ∃ x, getNum seg "p_vaddr" = some x)
    (hpf : ∃ x, getNum seg "p_filesz" = some x)
    (hpm : ∃ x, getNum seg "p_memsz" = some x)
    (hst : ∃ x, getStr sec "sh_type" = some x)
    (hsf : ∃ x, getNum sec "sh_flags" = some x)
    (hsa : ∃ x, getNum sec "sh_addr" = some x)
    (hss : ∃ x, getNum sec "sh_size" = some x)
    (hso : ∃ x, getNum sec "sh_offset" = some x) :
    ∃ b, section_in_segmentHV seg sec = some b := by
  obtain ⟨pt, hpt⟩ := hpt
  obtain ⟨po, hpo⟩ := hpo
  obtain ⟨pv, hpv⟩ := hpv
  obtain ⟨pf, hpf⟩ := hpf
  obtain ⟨pm, hpm⟩ := hpm
  obtain ⟨st, hst⟩ := hst
  obtain ⟨sf, hsf⟩ := hsf
  obtain ⟨sa, hsa⟩ := hsa
  obtain ⟨ss, hss⟩ := hss
  obtain ⟨so, hso⟩ := hso
  simp only [section_in_segmentHV, hpt, hpo, hpv, hpf, hpm, hst, hsf, hsa,
    hss, hso]
  split_ifs <;> exact ⟨_, rfl⟩

/-- Witness for C7 at concrete full views. -/
theorem C7_predicate_total_witness :
    ∃ b, section_in_segmentHV
      (segViewOf ⟨"PT_LOAD", 0, 0x1000, 0x100, 0x100⟩)
      (secViewOf ⟨"SHT_PROGBITS", SHF_ALLOC, 0x1000, 0x100, 0⟩) = some b :=
  C7_predicate_total _ _ ⟨_, rfl⟩ ⟨_, rfl⟩ ⟨_, rfl⟩ ⟨_, rfl⟩ ⟨_, rfl⟩
    ⟨_, rfl⟩ ⟨_, rfl⟩ ⟨_, rfl⟩ ⟨_, rfl⟩ ⟨_, rfl⟩

/-- Modelled from the spec: `struct_parse` of a `CString` at `stream_pos` —
reads the null-terminated string starting at the given position of the Byte
Source, excluding the terminator.  UTF-8 decoding of the bytes is the
external decoder's job; the string is kept as its byte sequence. -/
def parseCStringAt (stream : ByteSource) (pos : Nat) : List Nat :=
  (stream.data.drop pos).takeWhile (fun b => b != 0)

/-- `InterpSegment.get_interp_name()`: obtain the interpreter path used for
this ELF file, parsed as a null-terminated string at `p_offset`. -/
def InterpSegment.get_interp_name (header : SegmentHeader)
    (stream : ByteSource) : List Nat :=
  parseCStringAt stream header.p_offset

theorem takeWhile_append_nullbyte (s rest : List Nat) (h : ∀ b ∈ s, b ≠ 0) :
    (s ++ 0 :: rest).takeWhile (fun b => b != 0) = s := by
  induction s with
  | nil => simp [List.takeWhile_cons]
  | cons a t ih =>
    have ha : (a != 0) = true := by
      simpa using h a (List.mem_cons_self a t)
    have ht : ∀ b ∈ t, b ≠ 0 := fun b hb => h b (List.mem_cons_of_mem a hb)
    simp [List.takeWhile_cons, ha, ih ht]

/-- C10: when the Byte Source holds a null-terminated string starting at
`p_offset` (no null byte inside it), `get_interp_name()` returns exactly the
bytes before the null terminator, excluding the terminator. -/
theorem C10_interp_name (header : SegmentHeader) (stream : ByteSource)
    (s rest : List Nat) (hnn : ∀ b ∈ s, b ≠ 0)
    (h : stream.data.drop header.p_offset = s ++ 0 :: rest) :
    InterpSegment.get_interp_name header stream = s := by
  unfold InterpSegment.get_interp_name parseCStringAt
  rw [h]
  exact takeWhile_append_nullbyte s rest hnn

/-- Witness for C10: the bytes of `/lib64/ld-linux.so.2` followed by a null
terminator, at `p_offset = 2` of the stream. -/
theorem C10_interp_name_witness :
    InterpSegment.get_interp_name ⟨"PT_INTERP", 2, 0, 21, 21⟩
      ⟨[9, 9, 47, 108, 105, 98, 54, 52, 47, 108, 100, 45, 108, 105, 110,
        117, 120, 46, 115, 111, 46, 50, 0, 77], 0⟩ =
      [47, 108, 105, 98, 54, 52, 47, 108, 100, 45, 108, 105, 110, 117, 120,
       46, 115, 111, 46, 50] :=
  C10_interp_name _ _ _ [77] (by decide) (by decide)

/-- Modelled from the spec: a note record — a mapping exposing at least the
`n_name`, `n_type` and `n_desc` fields. -/
structure Note where
  n_name : String
  n_type : Nat
  n_desc : List Nat
deriving Repr, DecidableEq

/-- Modelled from the spec: record framing, padding and alignment of notes
are delegated entirely to the external note decoder (`elftools/elf/notes.py`,
outside the sources) and are out of scope; the decode is modelled as a
structural pass consuming at least one byte per record, so an empty byte
range yields no records. -/
def decodeNoteBytes : List Nat → List Note
  | [] => []
  | b :: rest => { n_name := "", n_type := b, n_desc := [] } ::
      decodeNoteBytes rest

/-- Modelled from the spec: `iter_notes(elffile, offset, size)` of
`elftools/elf/notes.py` (outside the sources) — the sequence of note records
decoded from the byte range `[offset, offset + size)` of the owning file
model. -/
def Notes.iter_notes (elffile : List Nat) (offset size : Nat) : List Note :=
  decodeNoteBytes ((elffile.drop offset).take size)

/-- `NoteSegment`: a Segment additionally holding a reference to the owning
file-level model, here its byte content. -/
structure NoteSegment where
  header : SegmentHeader
  elffile : List Nat

/-- `NoteSegment.iter_notes()`: yield all the notes in the segment, by
delegating to the external note decoder over
`[p_offset, p_offset + p_filesz)`. -/
def NoteSegment.iter_notes (ns : NoteSegment) : List Note :=
  Notes.iter_notes ns.elffile ns.header.p_offset ns.header.p_filesz

/-- C9: repeated calls of `iter_notes()` on one NoteSegment yield equal
sequences over the same fixed byte range (in the pure embedding the sequence
is a function of the segment alone, so every call is the same fresh
sequence), and a NoteSegment with `p_filesz = 0` yields the empty
sequence. -/
theorem C9_iter_notes_pure_and_empty :
    (∀ ns : NoteSegment,
      NoteSegment.iter_notes ns = NoteSegment.iter_notes ns) ∧
    (∀ ns : NoteSegment, ns.header.p_filesz = 0 →
      NoteSegment.iter_notes ns = []) := by
  refine ⟨fun ns => rfl, fun ns h => ?_⟩
  unfold NoteSegment.iter_notes Notes.iter_notes
  rw [h]
  simp [decodeNoteBytes]

/-- Witness for C9: a zero-size NOTE segment over a nonempty file yields no
records. -/
theorem C9_iter_notes_pure_and_empty_witness :
    NoteSegment.iter_notes ⟨⟨"PT_NOTE", 3, 0, 0, 0⟩, [1, 2, 3, 4, 5]⟩ = [] :=
  C9_iter_notes_pure_and_empty.2 _ rfl
